import Mathlib

/-!
# OpenEnergy — verification of spec claims against the source

Shallow embedding of the battery-arbitrage back-tester:

* `scripts/assets/battery.py` — battery state, temperature efficiency
  adjustment, SOH degradation, cycle accounting;
* `scripts/optimizer/model.py` — the LP constraint set built by
  `PyomoOptimizationModelBuilder` (variables, bounds, constraints, objective);
* `scripts/optimizer/scheduler.py` — solver-status dispatch in
  `create_schedule`;
* `scripts/market_simulator/pnl_calculator.py` — realized P&L accounting;
* `scripts/market_simulator/energy_market_simulator.py` — per-row schedule
  application;
* `scripts/prices/simulated_price.py` — simulated price source.

Python floats are modelled as rationals (`ℚ`): every arithmetic operation the
code performs (+, -, *, /, min, max, abs, comparisons) is embedded as the
exact-rational counterpart, keeping every definition computable so that
concrete states can be evaluated by `decide` / `norm_num`.  The price module
additionally abstracts `math.sin`, `math.pi` and the seeded Mersenne-Twister
stream of the `random` module as parameters, since the claims about it concern
lengths and reproducibility, not trigonometric values.
-/

namespace OpenEnergy

/-! ## Battery model (`scripts/assets/battery.py`) -/

/-- `TemperatureEfficiencyAdjuster.adjust_efficiency` (battery.py lines 18-29):
`temp_effect = abs(temperature_c - 25) * 0.01`;
each efficiency becomes `max(0.5, min(eff - temp_effect, 1.0))`. -/
def adjust_efficiency (temperature_c charge_efficiency discharge_efficiency : ℚ) :
    ℚ × ℚ :=
  let temp_effect := |temperature_c - 25| * (1 / 100)
  let new_charge_efficiency := max (1 / 2) (min (charge_efficiency - temp_effect) 1)
  let new_discharge_efficiency := max (1 / 2) (min (discharge_efficiency - temp_effect) 1)
  (new_charge_efficiency, new_discharge_efficiency)

/-- `BasicSOHCalculator.calculate_soh` (battery.py lines 46-62):
`base_degradation = 0.000005`, `dod_factor = 2 if dod > 0.5 else 1`,
`degradation_rate = base * energy * dod_factor`, result `soh * (1 - rate)`. -/
def calculate_soh (soh energy_cycled_mwh dod : ℚ) : ℚ :=
  let base_degradation : ℚ := 5 / 1000000
  let dod_factor : ℚ := if dod > 1 / 2 then 2 else 1
  let degradation_rate := base_degradation * energy_cycled_mwh * dod_factor
  soh * (1 - degradation_rate)

/-- The mutable state of `Battery` (battery.py lines 94-123).  The
`last_cycle_soc` attribute (set only inside `check_and_update_cycles`, never
initialised in `__init__` and never read) is omitted; no claim concerns it.
The `efficiency_adjuster` / `soh_calculator` collaborators are the default
`TemperatureEfficiencyAdjuster` / `BasicSOHCalculator` embedded above. -/
structure Battery where
  capacity_mwh : ℚ
  charge_efficiency : ℚ
  discharge_efficiency : ℚ
  max_charge_rate_mw : ℚ
  max_discharge_rate_mw : ℚ
  initial_soc : ℚ
  soc : ℚ
  soh : ℚ
  temperature_c : ℚ
  cycle_count : ℚ
  energy_cycled_mwh : ℚ
  duration_hours : ℚ
  deriving Repr, DecidableEq

/-- `Battery.validate_initial_conditions` (battery.py lines 125-145): raises
`ValueError` when `capacity_mwh <= 0`, `initial_soc ∉ [0,1]` or
`initial_soh ∉ [0,1]`, in that order; otherwise returns normally. -/
def validate_initial_conditions (capacity_mwh initial_soc initial_soh : ℚ) :
    Except String Unit :=
  if capacity_mwh ≤ 0 then
    Except.error ("Capacity must be greater than 0")
  else if ¬(0 ≤ initial_soc ∧ initial_soc ≤ 1) then
    Except.error ("Initial SOC must be between 0 and 1")
  else if ¬(0 ≤ initial_soh ∧ initial_soh ≤ 1) then
    Except.error ("Initial SOH must be between 0 and 1")
  else
    Except.ok ()

/-- The keyword arguments of `Battery.__init__` with the defaults the
constructor reads via `kwargs.get` (battery.py lines 94-117).
`max_charge_rate_mw` and `max_discharge_rate_mw` default to `capacity_mwh`,
which is expressed by an `Option` resolved inside the constructor. -/
structure BatteryKwargs where
  max_charge_rate_mw : Option ℚ := none
  max_discharge_rate_mw : Option ℚ := none
  initial_soc : ℚ := 1 / 2
  initial_soh : ℚ := 1
  temperature_c : ℚ := 25
  starting_cycle_count : ℚ := 0
  starting_energy_cycled_mwh : ℚ := 0
  duration_hours : ℚ := 1
  deriving Repr

/-- `Battery.__init__` (battery.py lines 94-123): validates
`(capacity_mwh, initial_soc, initial_soh)` and then populates the state;
`soc` starts equal to `initial_soc`, `soh` to `initial_soh`. -/
def Battery.init (capacity_mwh : ℚ) (charge_efficiency : ℚ := 9 / 10)
    (discharge_efficiency : ℚ := 9 / 10) (kwargs : BatteryKwargs := {}) :
    Except String Battery :=
  match validate_initial_conditions capacity_mwh kwargs.initial_soc kwargs.initial_soh with
  | Except.error e => Except.error e
  | Except.ok _ => Except.ok
    { capacity_mwh := capacity_mwh
      charge_efficiency := charge_efficiency
      discharge_efficiency := discharge_efficiency
      max_charge_rate_mw := kwargs.max_charge_rate_mw.getD capacity_mwh
      max_discharge_rate_mw := kwargs.max_discharge_rate_mw.getD capacity_mwh
      initial_soc := kwargs.initial_soc
      soc := kwargs.initial_soc
      soh := kwargs.initial_soh
      temperature_c := kwargs.temperature_c
      cycle_count := kwargs.starting_cycle_count
      energy_cycled_mwh := kwargs.starting_energy_cycled_mwh
      duration_hours := kwargs.duration_hours }

/-- `Battery.adjust_efficiency_for_temperature` (battery.py lines 147-156):
overwrites both efficiency fields with the adjusted pair. -/
def Battery.adjust_efficiency_for_temperature (b : Battery) : Battery :=
  let p := adjust_efficiency b.temperature_c b.charge_efficiency b.discharge_efficiency
  { b with charge_efficiency := p.1, discharge_efficiency := p.2 }

/-- `Battery.check_and_update_cycles` (battery.py lines 196-202):
`cycles = energy_cycled_mwh / (2 * capacity_mwh)` — the *accumulated* total,
not a per-operation delta — added to `cycle_count`. -/
def Battery.check_and_update_cycles (b : Battery) : Battery :=
  let cycles := b.energy_cycled_mwh / (2 * b.capacity_mwh)
  { b with cycle_count := b.cycle_count + cycles }

/-- `Battery.update_soh_and_cycles` (battery.py lines 184-194). -/
def Battery.update_soh_and_cycles (b : Battery) (energy_mwh : ℚ) : Battery :=
  let b₁ := { b with energy_cycled_mwh := b.energy_cycled_mwh + energy_mwh }
  let dod := 1 - b₁.soc
  let b₂ := { b₁ with soh := calculate_soh b₁.soh energy_mwh dod }
  b₂.check_and_update_cycles

/-- `Battery.charge` (battery.py lines 158-169): adjust efficiencies, clamp the
request to `max_charge_rate_mw * duration_hours` from above only, add
`energy * charge_efficiency / capacity` to SOC with a ceiling at 1.0 and no
floor, then run SOH / cycle bookkeeping on the clamped request. -/
def Battery.charge (b : Battery) (energy_mwh : ℚ) : Battery :=
  let b₁ := b.adjust_efficiency_for_temperature
  let energy_mwh₁ := min energy_mwh (b₁.max_charge_rate_mw * b₁.duration_hours)
  let actual_energy_mwh := energy_mwh₁ * b₁.charge_efficiency
  let b₂ := { b₁ with soc := min (b₁.soc + actual_energy_mwh / b₁.capacity_mwh) 1 }
  b₂.update_soh_and_cycles energy_mwh₁

/-- `Battery.discharge` (battery.py lines 171-182): symmetric to `charge`,
with a floor at 0.0 and no ceiling on SOC. -/
def Battery.discharge (b : Battery) (energy_mwh : ℚ) : Battery :=
  let b₁ := b.adjust_efficiency_for_temperature
  let energy_mwh₁ := min energy_mwh (b₁.max_discharge_rate_mw * b₁.duration_hours)
  let actual_energy_mwh := energy_mwh₁ * b₁.discharge_efficiency
  let b₂ := { b₁ with soc := max (b₁.soc - actual_energy_mwh / b₁.capacity_mwh) 0 }
  b₂.update_soh_and_cycles energy_mwh₁

/-! ## Simulator schedule application
(`scripts/market_simulator/energy_market_simulator.py`) -/

/-- One iteration of `EnergyMarketSimulator.process_daily_schedule`
(energy_market_simulator.py lines 58-77): an `if / elif / elif` chain over
the `Charge` and `Discharge` columns of the row.  A row with both values zero
takes the final branch and still calls `battery.charge(0.0)`. -/
def apply_schedule_row (b : Battery) (charge_value discharge_value : ℚ) : Battery :=
  if charge_value > 0 then b.charge charge_value
  else if discharge_value > 0 then b.discharge discharge_value
  else if charge_value = 0 ∧ discharge_value = 0 then b.charge charge_value
  else b

/-! ## P&L calculator (`scripts/market_simulator/pnl_calculator.py`) -/

/-- The body of the loop in `PnLCalculator.calculate` (pnl_calculator.py
lines 43-53) for one `(Charge, Discharge)` row and one actual price:
`price = actual_prices[i] * timestep_hours`, then an `if / elif` chain —
charge branch `pnl -= charge * price / charge_efficiency`, otherwise
discharge branch `pnl += discharge * price * discharge_efficiency`,
otherwise `continue`. -/
def pnl_step (charge_efficiency discharge_efficiency timestep_hours : ℚ)
    (pnl : ℚ) (row : (ℚ × ℚ) × ℚ) : ℚ :=
  let charge_value := row.1.1
  let discharge_value := row.1.2
  let price := row.2 * timestep_hours
  if charge_value > 0 then pnl - charge_value * price / charge_efficiency
  else if discharge_value > 0 then pnl + discharge_value * price * discharge_efficiency
  else pnl

/-- `PnLCalculator.calculate` (pnl_calculator.py lines 24-54): starts at
`pnl = 0` and folds `pnl_step` over the rows paired with the actual prices
(the Python loop indexes both by `i = 0 .. len(actual_prices) - 1`). -/
def calculate (charge_efficiency discharge_efficiency : ℚ)
    (schedule : List (ℚ × ℚ)) (actual_prices : List ℚ)
    (timestep_hours : ℚ := 1) : ℚ :=
  (schedule.zip actual_prices).foldl
    (pnl_step charge_efficiency discharge_efficiency timestep_hours) 0

/-! ## LP model (`scripts/optimizer/model.py`)

The Pyomo model built by `PyomoOptimizationModelBuilder.build_model` is
embedded as a satisfaction predicate over an assignment of the four variable
families `charge_vars`, `discharge_vars`, `soc_vars`, `energy_cycled_vars`
(indexed by `t ∈ model.T = {0, …, num_intervals - 1}`), together with the
objective expression.  The SOC and cycled-energy recursions of
`_soc_update_rule` / `_energy_cycled_update_rule` skip `t = 0` and relate
`t` to `t - 1`; they are written here for `t + 1` against `t`. -/

/-- An assignment of the decision variables of the LP. -/
structure LPAssignment where
  charge_vars : ℕ → ℚ
  discharge_vars : ℕ → ℚ
  soc_vars : ℕ → ℚ
  energy_cycled_vars : ℕ → ℚ

/-- The variable bounds of `define_variables` (model.py lines 55-79):
`charge_vars`, `discharge_vars` in `[0, capacity_mwh]`, `soc_vars` in
`[0.05, 0.95]`, `energy_cycled_vars` non-negative. -/
def satisfies_variable_bounds (b : Battery) (num_intervals : ℕ)
    (v : LPAssignment) : Prop :=
  ∀ t < num_intervals,
    (0 ≤ v.charge_vars t ∧ v.charge_vars t ≤ b.capacity_mwh) ∧
    (0 ≤ v.discharge_vars t ∧ v.discharge_vars t ≤ b.capacity_mwh) ∧
    (5 / 100 ≤ v.soc_vars t ∧ v.soc_vars t ≤ 95 / 100) ∧
    0 ≤ v.energy_cycled_vars t

/-- The constraints of `define_constraints` (model.py lines 178-205):
initial-SOC constraint `soc_vars[0] == battery.initial_soc` (line 190),
`_charging_discharging_rule` (lines 117-130), `_soc_update_rule`
(lines 132-154, skipped at `t = 0`), `_energy_cycled_update_rule`
(lines 156-176, skipped at `t = 0`) and the max-cycles constraint
`energy_cycled_vars[num_intervals - 1] <= max_cycles * capacity_mwh * 2`
(lines 201-205). -/
def satisfies_constraints (b : Battery) (num_intervals : ℕ) (max_cycles : ℚ)
    (v : LPAssignment) : Prop :=
  v.soc_vars 0 = b.initial_soc ∧
  (∀ t < num_intervals,
    v.charge_vars t + v.discharge_vars t ≤ b.capacity_mwh) ∧
  (∀ t, t + 1 < num_intervals →
    v.soc_vars (t + 1) = v.soc_vars t
      + v.charge_vars t * b.charge_efficiency / b.capacity_mwh
      - v.discharge_vars t / b.discharge_efficiency / b.capacity_mwh) ∧
  (∀ t, t + 1 < num_intervals →
    v.energy_cycled_vars (t + 1) = v.energy_cycled_vars t
      + v.charge_vars t * b.charge_efficiency
      + v.discharge_vars t * (1 / b.discharge_efficiency)) ∧
  v.energy_cycled_vars (num_intervals - 1) ≤ max_cycles * b.capacity_mwh * 2

/-- Feasibility for the full model of `build_model` (model.py lines 14-43):
the variable bounds together with all constraints. -/
def feasible (b : Battery) (num_intervals : ℕ) (max_cycles : ℚ)
    (v : LPAssignment) : Prop :=
  satisfies_variable_bounds b num_intervals v ∧
  satisfies_constraints b num_intervals max_cycles v

/-- `_objective_rule` (model.py lines 81-104): the maximized expression
`Σ_t discharge[t] * prices[t] * discharge_efficiency / timestep_hours
     - charge[t] * prices[t] / (charge_efficiency * timestep_hours)`. -/
def objective (b : Battery) (prices : ℕ → ℚ) (timestep_hours : ℚ)
    (num_intervals : ℕ) (v : LPAssignment) : ℚ :=
  ∑ t ∈ Finset.range num_intervals,
    (v.discharge_vars t * prices t * b.discharge_efficiency / timestep_hours
      - v.charge_vars t * prices t / (b.charge_efficiency * timestep_hours))

/-! ## Scheduler dispatch (`scripts/optimizer/scheduler.py`) -/

/-- The Pyomo solver-status values relevant to
`GLPKOptimizationSolver.solve` / `create_schedule`. -/
inductive SolverStatus
  | ok | warning | error | aborted | unknown
  deriving DecidableEq, Repr

/-- The Pyomo termination conditions distinguished by the code
(model.py lines 239-258), plus `unknown` for "anything else". -/
inductive TerminationCondition
  | optimal | infeasible | infeasibleOrUnbounded | unbounded
  | maxIterations | unknown
  deriving DecidableEq, Repr

/-- The `result.solver` fields read by `create_schedule`. -/
structure SolverResult where
  status : SolverStatus
  termination_condition : TerminationCondition
  deriving DecidableEq, Repr

/-- The status dispatch of `BatteryOptimizationScheduler.create_schedule`
(scheduler.py lines 100-119): the model is built and solved (both external
here, so the report of the solver and the output of the extractor are inputs); the
extracted schedule is returned exactly when `status == ok` and
`termination_condition == optimal`, otherwise an exception carrying both
fields is raised. -/
def create_schedule {S : Type} (result : SolverResult)
    (extracted : S) :
    Except (SolverStatus × TerminationCondition) S :=
  if result.status = SolverStatus.ok ∧
      result.termination_condition = TerminationCondition.optimal then
    Except.ok extracted
  else
    Except.error (result.status, result.termination_condition)

/-! ## Simulated price source (`scripts/prices/simulated_price.py`)

The module uses the global `random` PRNG of Python: `generate` re-seeds it with
`date.toordinal()` and draws one `random.uniform(-1, 1)` per interval;
`SimulatedPriceNoiseAdder.add` continues the same stream with one
`random.uniform(-noise_level, noise_level)` and one `random.random()` per
price.  The PRNG is embedded as a state machine over an arbitrary state type
`σ` with `seedFn : ℕ → σ` (the effect of `random.seed`) and
`nextFn : σ → ℚ × σ` (one `random.random()` draw); in CPython
`uniform(a, b)` is `a + (b - a) * random()`.  `math.sin` and `math.pi` are
abstracted as `sinq` / `piq` since no claim depends on their values. -/

/-- Configuration of `SimulatedPriceEnvelopeGenerator.__init__`
(simulated_price.py lines 10-22), with the defaults of the source. -/
structure EnvelopeConfig where
  num_intervals : ℕ := 24
  min_price : ℚ := 0
  max_price : ℚ := 200
  peak_start : ℚ := 16
  peak_end : ℚ := 32

/-- Configuration of `SimulatedPriceNoiseAdder.__init__`
(simulated_price.py lines 50-58), with the defaults of the source. -/
structure NoiseConfig where
  noise_level : ℚ := 5
  spike_chance : ℚ := 1 / 20
  spike_multiplier : ℚ := 3 / 2

/-- One `random.uniform(a, b)` draw: `a + (b - a) * random()`. -/
def uniformNext {σ : Type} (nextFn : σ → ℚ × σ) (a b : ℚ) (s : σ) : ℚ × σ :=
  let r := nextFn s
  (a + (b - a) * r.1, r.2)

/-- The deterministic part of the envelope price for interval `i`
(simulated_price.py lines 28-36): `x = 2π * i / num_intervals`; inside the
peak window a full-period sine between `min_price` and `max_price`, outside
it a double-frequency sine of a quarter of the amplitude. -/
def envelope_base (sinq : ℚ → ℚ) (piq : ℚ) (cfg : EnvelopeConfig) (i : ℕ) : ℚ :=
  let x := piq * 2 * ((i : ℚ) / (cfg.num_intervals : ℚ))
  if cfg.peak_start ≤ (i : ℚ) ∧ (i : ℚ) < cfg.peak_end then
    cfg.min_price + (cfg.max_price - cfg.min_price) * ((sinq (x - piq / 2) + 1) / 2)
  else
    cfg.min_price + ((cfg.max_price - cfg.min_price) / 4) * ((sinq (x * 2 - piq / 2) + 1) / 2)

/-- The loop of `SimulatedPriceEnvelopeGenerator.generate`
(simulated_price.py lines 26-46): per interval, the base price plus
`uniform(-1, 1) * (max_price - min_price) / 20`, clamped into
`[min_price, max_price]`; `n` counts the remaining intervals and `i` is the
current interval index. -/
def generate_loop {σ : Type} (nextFn : σ → ℚ × σ) (sinq : ℚ → ℚ) (piq : ℚ)
    (cfg : EnvelopeConfig) : ℕ → ℕ → σ → List ℚ × σ
  | 0, _, s => ([], s)
  | n + 1, i, s =>
    let adj := uniformNext nextFn (-1) 1 s
    let price := envelope_base sinq piq cfg i
      + adj.1 * (cfg.max_price - cfg.min_price) / 20
    let clamped := max cfg.min_price (min price cfg.max_price)
    let rest := generate_loop nextFn sinq piq cfg n (i + 1) adj.2
    (clamped :: rest.1, rest.2)

/-- `SimulatedPriceEnvelopeGenerator.generate` (simulated_price.py lines
24-46): re-seeds the PRNG with the ordinal of the date — the incoming PRNG state
`s₀` is discarded — then produces `num_intervals` prices. -/
def generate {σ : Type} (seedFn : ℕ → σ) (nextFn : σ → ℚ × σ) (sinq : ℚ → ℚ)
    (piq : ℚ) (cfg : EnvelopeConfig) (ordinal : ℕ) (_s₀ : σ) : List ℚ × σ :=
  generate_loop nextFn sinq piq cfg cfg.num_intervals 0 (seedFn ordinal)

/-- `SimulatedPriceNoiseAdder.add` (simulated_price.py lines 60-72): per
price, add `uniform(-noise_level, noise_level)`, multiply by
`spike_multiplier` when `random.random() < spike_chance`, clamp below at 0. -/
def add_noise {σ : Type} (nextFn : σ → ℚ × σ) (cfg : NoiseConfig) :
    List ℚ → σ → List ℚ × σ
  | [], s => ([], s)
  | p :: ps, s =>
    let noise := uniformNext nextFn (-cfg.noise_level) cfg.noise_level s
    let new_price := p + noise.1
    let draw := nextFn noise.2
    let new_price₁ :=
      if draw.1 < cfg.spike_chance then new_price * cfg.spike_multiplier
      else new_price
    let rest := add_noise nextFn cfg ps draw.2
    (max 0 new_price₁ :: rest.1, rest.2)

/-- `SimulatedPriceModel.get_prices` (simulated_price.py lines 82-85):
the envelope followed by the noisy series, threading the global PRNG state;
returns both lists and the final PRNG state. -/
def get_prices {σ : Type} (seedFn : ℕ → σ) (nextFn : σ → ℚ × σ)
    (sinq : ℚ → ℚ) (piq : ℚ) (ecfg : EnvelopeConfig) (ncfg : NoiseConfig)
    (ordinal : ℕ) (s₀ : σ) : (List ℚ × List ℚ) × σ :=
  let prices := generate seedFn nextFn sinq piq ecfg ordinal s₀
  let noisy := add_noise nextFn ncfg prices.1 prices.2
  ((prices.1, noisy.1), noisy.2)

/-! ## Concrete states used by counterexamples and witnesses -/

/-- The battery produced by `Battery(1.0)` with all keyword defaults:
capacity 1 MWh, both efficiencies 0.9, rates defaulting to the capacity,
`initial_soc = soc = 0.5`, `soh = 1`, 25 °C, zero cycles. -/
def exampleBattery : Battery :=
  { capacity_mwh := 1
    charge_efficiency := 9 / 10
    discharge_efficiency := 9 / 10
    max_charge_rate_mw := 1
    max_discharge_rate_mw := 1
    initial_soc := 1 / 2
    soc := 1 / 2
    soh := 1
    temperature_c := 25
    cycle_count := 0
    energy_cycled_mwh := 0
    duration_hours := 1 }

/-- `exampleBattery` after the simulator applied one charge of 0.5 MWh — a
state reached on a later planning call of a run: `soc = 0.95` while
`initial_soc` is still `0.5`. -/
def dayTwoBattery : Battery := exampleBattery.charge (1 / 2)

/-- `dayTwoBattery` after a second charge of 0.5 MWh:
`energy_cycled_mwh = 1`, `cycle_count = 3/4`. -/
def cycledBattery : Battery := dayTwoBattery.charge (1 / 2)

/-- `Battery(1.0, temperature_c=30)`: every operation shifts the
efficiencies by `|30 - 25| * 0.01 = 0.05`. -/
def hotBattery : Battery := { exampleBattery with temperature_c := 30 }

/-- The all-zero LP assignment whose SOC track is constantly `1/2`. -/
def zeroHalfAssignment : LPAssignment :=
  { charge_vars := fun _ => 0
    discharge_vars := fun _ => 0
    soc_vars := fun _ => 1 / 2
    energy_cycled_vars := fun _ => 0 }

/-- An LP assignment that is idle except for a discharge of `1/2` in the
last interval of a 2-interval horizon; its cycled-energy track is constantly
0, because the recursions only ever reference `charge_vars t` and
`discharge_vars t` for `t ≤ num_intervals - 2`. -/
def lastIntervalAssignment : LPAssignment :=
  { charge_vars := fun _ => 0
    discharge_vars := fun t => if t = 1 then 1 / 2 else 0
    soc_vars := fun _ => 1 / 2
    energy_cycled_vars := fun _ => 0 }

/-- A charge or discharge call on the battery, for reasoning about
sequences of operations. -/
inductive BatteryOp
  | charge (energy_mwh : ℚ)
  | discharge (energy_mwh : ℚ)

/-- Apply one operation. -/
def applyOp (b : Battery) : BatteryOp → Battery
  | BatteryOp.charge e => b.charge e
  | BatteryOp.discharge e => b.discharge e

/-- Apply a sequence of operations in order. -/
def applyOps (b : Battery) (ops : List BatteryOp) : Battery :=
  ops.foldl applyOp b

/-! ## Helper lemmas -/

theorem charge_fields (b : Battery) (e : ℚ) :
    (b.charge e).soc
        = min (b.soc
            + min e (b.max_charge_rate_mw * b.duration_hours)
              * (adjust_efficiency b.temperature_c b.charge_efficiency
                  b.discharge_efficiency).1 / b.capacity_mwh) 1 ∧
      (b.charge e).energy_cycled_mwh
        = b.energy_cycled_mwh + min e (b.max_charge_rate_mw * b.duration_hours) ∧
      (b.charge e).cycle_count
        = b.cycle_count
          + (b.energy_cycled_mwh + min e (b.max_charge_rate_mw * b.duration_hours))
            / (2 * b.capacity_mwh) ∧
      (b.charge e).charge_efficiency
        = (adjust_efficiency b.temperature_c b.charge_efficiency
            b.discharge_efficiency).1 ∧
      (b.charge e).discharge_efficiency
        = (adjust_efficiency b.temperature_c b.charge_efficiency
            b.discharge_efficiency).2 ∧
      (b.charge e).temperature_c = b.temperature_c ∧
      (b.charge e).capacity_mwh = b.capacity_mwh ∧
      (b.charge e).soh
        = calculate_soh b.soh (min e (b.max_charge_rate_mw * b.duration_hours))
            (1 - (b.charge e).soc) := by
  simp [Battery.charge, Battery.update_soh_and_cycles, Battery.check_and_update_cycles,
    Battery.adjust_efficiency_for_temperature]

theorem discharge_fields (b : Battery) (e : ℚ) :
    (b.discharge e).soc
        = max (b.soc
            - min e (b.max_discharge_rate_mw * b.duration_hours)
              * (adjust_efficiency b.temperature_c b.charge_efficiency
                  b.discharge_efficiency).2 / b.capacity_mwh) 0 ∧
      (b.discharge e).energy_cycled_mwh
        = b.energy_cycled_mwh + min e (b.max_discharge_rate_mw * b.duration_hours) ∧
      (b.discharge e).cycle_count
        = b.cycle_count
          + (b.energy_cycled_mwh + min e (b.max_discharge_rate_mw * b.duration_hours))
            / (2 * b.capacity_mwh) ∧
      (b.discharge e).charge_efficiency
        = (adjust_efficiency b.temperature_c b.charge_efficiency
            b.discharge_efficiency).1 ∧
      (b.discharge e).discharge_efficiency
        = (adjust_efficiency b.temperature_c b.charge_efficiency
            b.discharge_efficiency).2 ∧
      (b.discharge e).temperature_c = b.temperature_c ∧
      (b.discharge e).capacity_mwh = b.capacity_mwh ∧
      (b.discharge e).soh
        = calculate_soh b.soh (min e (b.max_discharge_rate_mw * b.duration_hours))
            (1 - (b.discharge e).soc) := by
  simp [Battery.discharge, Battery.update_soh_and_cycles, Battery.check_and_update_cycles,
    Battery.adjust_efficiency_for_temperature]

theorem dayTwoBattery_eval :
    dayTwoBattery =
      { exampleBattery with
          soc := 19 / 20
          soh := 399999 / 400000
          energy_cycled_mwh := 1 / 2
          cycle_count := 1 / 4 } := by
  norm_num [dayTwoBattery, exampleBattery, Battery.charge, Battery.update_soh_and_cycles,
    Battery.check_and_update_cycles, Battery.adjust_efficiency_for_temperature,
    adjust_efficiency, calculate_soh]

theorem cycledBattery_eval :
    cycledBattery =
      { exampleBattery with
          soc := 1
          soh := 399999 / 400000 * (1 - 5 / 1000000 * (1 / 2))
          energy_cycled_mwh := 1
          cycle_count := 3 / 4 } := by
  rw [cycledBattery, dayTwoBattery_eval]
  norm_num [exampleBattery, Battery.charge, Battery.update_soh_and_cycles,
    Battery.check_and_update_cycles, Battery.adjust_efficiency_for_temperature,
    adjust_efficiency, calculate_soh]

/-- The step of the P&L fold adds a per-row term to the accumulator. -/
theorem pnl_step_shift (ηc ηd Δh a : ℚ) (x : (ℚ × ℚ) × ℚ) :
    pnl_step ηc ηd Δh a x = a + pnl_step ηc ηd Δh 0 x := by
  simp only [pnl_step]
  split_ifs <;> ring

/-- The P&L fold over any accumulator splits off the accumulator. -/
theorem pnl_foldl_shift (ηc ηd Δh a : ℚ) (l : List ((ℚ × ℚ) × ℚ)) :
    l.foldl (pnl_step ηc ηd Δh) a = a + l.foldl (pnl_step ηc ηd Δh) 0 := by
  induction l generalizing a with
  | nil => simp
  | cons x xs ih =>
    rw [List.foldl_cons, List.foldl_cons, pnl_step_shift, ih,
      ih (pnl_step ηc ηd Δh 0 x)]
    ring

/-- The all-zero assignment with SOC `1/2` is feasible for `exampleBattery`
over any horizon and any non-negative cycle budget. -/
theorem feasible_zeroHalf (N : ℕ) (mc : ℚ) (hmc : 0 ≤ mc) :
    feasible exampleBattery N mc zeroHalfAssignment := by
  refine ⟨fun t _ => ?_, ?_, fun t _ => ?_, fun t _ => ?_, fun t _ => ?_, ?_⟩ <;>
    norm_num [zeroHalfAssignment, exampleBattery]
  linarith

theorem validate_ok_iff (capacity_mwh initial_soc initial_soh : ℚ) :
    validate_initial_conditions capacity_mwh initial_soc initial_soh = Except.ok () ↔
      (0 < capacity_mwh ∧ 0 ≤ initial_soc ∧ initial_soc ≤ 1 ∧
        0 ≤ initial_soh ∧ initial_soh ≤ 1) := by
  unfold validate_initial_conditions
  split_ifs with h1 h2 h3 <;> simp_all

/-! ## Claims -/

/-- C7: the `Battery` constructor succeeds exactly when `capacity_mwh > 0`,
the initial SOC lies in `[0, 1]` and the initial SOH lies in `[0, 1]`
(otherwise `validate_initial_conditions` raises); `charge` and `discharge`
are total functions of the state (they clamp out-of-range requests instead
of rejecting them), which the embedding reflects in their types. -/
theorem battery_init_ok_iff (capacity_mwh ηc ηd : ℚ) (kwargs : BatteryKwargs) :
    (∃ b, Battery.init capacity_mwh ηc ηd kwargs = Except.ok b) ↔
      (0 < capacity_mwh ∧ 0 ≤ kwargs.initial_soc ∧ kwargs.initial_soc ≤ 1 ∧
        0 ≤ kwargs.initial_soh ∧ kwargs.initial_soh ≤ 1) := by
  unfold Battery.init
  rcases hval : validate_initial_conditions capacity_mwh kwargs.initial_soc
      kwargs.initial_soh with msg | u
  · simp only [hval]
    constructor
    · rintro ⟨b, hb⟩; cases hb
    · intro hok
      rw [← validate_ok_iff capacity_mwh kwargs.initial_soc kwargs.initial_soh] at hok
      rw [hval] at hok; cases hok
  · simp only [hval]
    constructor
    · intro _
      rw [← validate_ok_iff capacity_mwh kwargs.initial_soc kwargs.initial_soh]
      cases u; exact hval
    · intro _; exact ⟨_, rfl⟩

/-- Witness for C7: `Battery(1.0)` with default keyword arguments
constructs successfully. -/
theorem battery_init_ok_iff_witness :
    ∃ b, Battery.init 1 (9 / 10) (9 / 10) {} = Except.ok b :=
  (battery_init_ok_iff 1 (9 / 10) (9 / 10) {}).mpr (by norm_num [BatteryKwargs])

/-- C6: `create_schedule` returns the extracted schedule exactly when the
solver reports status `ok` with termination condition `optimal`; for any
other pair it raises an exception carrying the status and the termination
condition, so no schedule is produced. -/
theorem create_schedule_ok_iff_optimal (S : Type) (result : SolverResult)
    (extracted : S) :
    (create_schedule result extracted = Except.ok extracted ↔
      (result.status = SolverStatus.ok ∧
        result.termination_condition = TerminationCondition.optimal)) ∧
    (¬(result.status = SolverStatus.ok ∧
        result.termination_condition = TerminationCondition.optimal) →
      create_schedule result extracted
        = Except.error (result.status, result.termination_condition)) := by
  unfold create_schedule
  constructor
  · constructor
    · intro h
      by_contra hc
      rw [if_neg hc] at h
      cases h
    · intro h; rw [if_pos h]
  · intro h; rw [if_neg h]

/-- Witness for C6: an `infeasible` report raises with the pair, and an
`optimal` report returns the schedule. -/
theorem create_schedule_ok_iff_optimal_witness :
    @create_schedule ℚ
        ⟨SolverStatus.warning, TerminationCondition.infeasible⟩ 0
      = Except.error (SolverStatus.warning, TerminationCondition.infeasible) ∧
    @create_schedule ℚ ⟨SolverStatus.ok, TerminationCondition.optimal⟩ 0
      = Except.ok 0 :=
  ⟨(create_schedule_ok_iff_optimal ℚ
      ⟨SolverStatus.warning, TerminationCondition.infeasible⟩ 0).2 (by simp),
    (create_schedule_ok_iff_optimal ℚ
      ⟨SolverStatus.ok, TerminationCondition.optimal⟩ 0).1.mpr ⟨rfl, rfl⟩⟩

/-- C2 counterexample: on the row `(Charge, Discharge) = (1, 1)` with actual
price 10, unit efficiencies 0.9 and `Δh = 1`, `PnLCalculator.calculate`
returns only the charge term `-1·10/0.9 = -100/9`; the independent-branches
value `-100/9 + 1·10·0.9` claimed for such a row is not returned. -/
theorem pnl_branches_not_independent :
    calculate (9 / 10) (9 / 10) [(1, 1)] [10] 1 = -(1 * (10 * 1) / (9 / 10)) ∧
    calculate (9 / 10) (9 / 10) [(1, 1)] [10] 1
      ≠ -(1 * (10 * 1) / (9 / 10)) + 1 * (10 * 1) * (9 / 10) := by
  norm_num [calculate, pnl_step]

/-- C2 amended: the two branches are an `if / elif` chain, not independent:
a row with `Charge > 0` contributes `-c·p·Δh/η_c` regardless of its
`Discharge` value; only a row with `Charge ≤ 0` and `Discharge > 0`
contributes `+d·p·Δh·η_d`; a row with both zero (or negative) contributes
nothing. -/
theorem pnl_row_charge_priority (ηc ηd Δh c d p : ℚ) (rows : List (ℚ × ℚ))
    (ps : List ℚ) :
    calculate ηc ηd ((c, d) :: rows) (p :: ps) Δh
      = (if 0 < c then -(c * (p * Δh) / ηc)
          else if 0 < d then d * (p * Δh) * ηd else 0)
        + calculate ηc ηd rows ps Δh := by
  unfold calculate
  rw [List.zip_cons_cons, List.foldl_cons, pnl_foldl_shift]
  simp only [pnl_step]
  split_ifs <;> ring

/-- C3 counterexample: on `Battery(1.0)` after one charge of 0.5 MWh, a
second charge of 0.5 MWh (not clamped: the rate bound is 1 MWh) increases
`cycle_count` by `1/2` — the accumulated `energy_cycled_mwh / (2·capacity)` —
not by the claimed per-operation delta `0.5 / (2·1) = 1/4`. -/
theorem cycle_count_delta_not_per_operation :
    min (1 / 2) (dayTwoBattery.max_charge_rate_mw * dayTwoBattery.duration_hours)
      = 1 / 2 ∧
    dayTwoBattery.capacity_mwh = 1 ∧
    cycledBattery = dayTwoBattery.charge (1 / 2) ∧
    cycledBattery.cycle_count - dayTwoBattery.cycle_count
      ≠ (1 / 2) / (2 * dayTwoBattery.capacity_mwh) := by
  refine ⟨?_, ?_, rfl, ?_⟩
  · rw [dayTwoBattery_eval]; norm_num [exampleBattery]
  · rw [dayTwoBattery_eval]; norm_num [exampleBattery]
  · rw [cycledBattery_eval, dayTwoBattery_eval]; norm_num [exampleBattery]

/-- C3 amended: each operation adds
`(energy_cycled_mwh + clamped_energy) / (2·capacity_mwh)` to `cycle_count` —
`check_and_update_cycles` divides the *accumulated* throughput, including the
energy just added, by `2·capacity`, so the per-operation increment grows with
the lifetime throughput of the battery instead of being `energy / (2·capacity)`. -/
theorem cycle_count_adds_accumulated_total (b : Battery) (e : ℚ) :
    (b.charge e).cycle_count
        = b.cycle_count
          + (b.energy_cycled_mwh + min e (b.max_charge_rate_mw * b.duration_hours))
            / (2 * b.capacity_mwh) ∧
      (b.discharge e).cycle_count
        = b.cycle_count
          + (b.energy_cycled_mwh + min e (b.max_discharge_rate_mw * b.duration_hours))
            / (2 * b.capacity_mwh) :=
  ⟨(charge_fields b e).2.2.1, (discharge_fields b e).2.2.1⟩

/-- C4 counterexample: an all-zero schedule row is not a no-op.  On a
battery with accumulated throughput 1 MWh it increases `cycle_count` by
`1/(2·1) = 1/2`, and on a battery at 30 °C it lowers `charge_efficiency`
from 0.9 to 0.85, because the zero row still calls `battery.charge(0.0)`. -/
theorem zero_row_not_noop :
    (apply_schedule_row cycledBattery 0 0).cycle_count ≠ cycledBattery.cycle_count ∧
    (apply_schedule_row hotBattery 0 0).charge_efficiency
      ≠ hotBattery.charge_efficiency := by
  constructor
  · norm_num [apply_schedule_row]
    rw [(charge_fields cycledBattery 0).2.2.1]
    rw [cycledBattery_eval]
    norm_num [exampleBattery]
  · norm_num [apply_schedule_row]
    rw [(charge_fields hotBattery 0).2.2.2.1]
    norm_num [hotBattery, exampleBattery, adjust_efficiency]

/-- C4 amended: an all-zero schedule row leaves `soc` (when `soc ≤ 1`),
`soh` and `energy_cycled_mwh` unchanged, but it re-runs the temperature
adjustment on both efficiencies and adds `energy_cycled_mwh / (2·capacity)`
to `cycle_count`; it is a genuine no-op only when the temperature adjustment
is neutral and the accumulated throughput is zero. -/
theorem zero_row_effect (b : Battery) (hsoc : b.soc ≤ 1)
    (hrate : 0 ≤ b.max_charge_rate_mw * b.duration_hours) :
    (apply_schedule_row b 0 0).soc = b.soc ∧
    (apply_schedule_row b 0 0).soh = b.soh ∧
    (apply_schedule_row b 0 0).energy_cycled_mwh = b.energy_cycled_mwh ∧
    (apply_schedule_row b 0 0).cycle_count
      = b.cycle_count + b.energy_cycled_mwh / (2 * b.capacity_mwh) ∧
    (apply_schedule_row b 0 0).charge_efficiency
      = (adjust_efficiency b.temperature_c b.charge_efficiency
          b.discharge_efficiency).1 ∧
    (apply_schedule_row b 0 0).discharge_efficiency
      = (adjust_efficiency b.temperature_c b.charge_efficiency
          b.discharge_efficiency).2 := by
  have hmin : min (0 : ℚ) (b.max_charge_rate_mw * b.duration_hours) = 0 :=
    min_eq_left hrate
  have hfields := charge_fields b 0
  simp only [apply_schedule_row, lt_irrefl, if_false, and_self, if_true, if_neg,
    not_lt]
  refine ⟨?_, ?_, ?_, ?_, ?_, ?_⟩
  · rw [hfields.1, hmin]
    simpa using min_eq_left hsoc
  · rw [hfields.2.2.2.2.2.2.2, hmin]
    simp [calculate_soh]
  · rw [hfields.2.1, hmin, add_zero]
  · rw [hfields.2.2.1, hmin, add_zero]
  · exact hfields.2.2.2.1
  · exact hfields.2.2.2.2.1

/-- Witness for C4 amended: on `Battery(1.0)` (25 °C, zero throughput) a
zero row leaves SOC and SOH unchanged and adds `0/(2·1) = 0` cycles. -/
theorem zero_row_effect_witness :
    (apply_schedule_row exampleBattery 0 0).soc = exampleBattery.soc ∧
    (apply_schedule_row exampleBattery 0 0).cycle_count
      = exampleBattery.cycle_count
        + exampleBattery.energy_cycled_mwh / (2 * exampleBattery.capacity_mwh) :=
  ⟨(zero_row_effect exampleBattery (by norm_num [exampleBattery])
      (by norm_num [exampleBattery])).1,
    (zero_row_effect exampleBattery (by norm_num [exampleBattery])
      (by norm_num [exampleBattery])).2.2.2.1⟩

/-- C1 counterexample: on a planning call after one day of operation
(`dayTwoBattery`: `soc = 19/20`, `initial_soc = 1/2`) the constant-`1/2`
idle assignment satisfies every constraint of the built model, yet its first
SOC variable differs from the `soc` field of the battery — the model pins
`soc_vars[0]` to `initial_soc`, not to the snapshot `soc`. -/
theorem initial_soc_constraint_not_current_soc :
    feasible dayTwoBattery 1 5 zeroHalfAssignment ∧
    zeroHalfAssignment.soc_vars 0 ≠ dayTwoBattery.soc := by
  rw [dayTwoBattery_eval]
  constructor
  · refine ⟨fun t _ => ?_, ?_, fun t _ => ?_, fun t _ => ?_, fun t _ => ?_, ?_⟩ <;>
      norm_num [zeroHalfAssignment, exampleBattery]
  · norm_num [zeroHalfAssignment, exampleBattery]

/-- C1 amended: the initial-SOC constraint of the LP pins `soc_vars[0]` to
the field `initial_soc` — the SOC at construction time — for every planning
call; it equals the current `soc` of the battery only while no operation has
moved it. -/
theorem initial_soc_constraint_pins_initial_soc (b : Battery) (N : ℕ)
    (max_cycles : ℚ) (v : LPAssignment) (hfeas : feasible b N max_cycles v) :
    v.soc_vars 0 = b.initial_soc :=
  hfeas.2.1

/-- Witness for C1 amended: the idle assignment on a fresh `Battery(1.0)`
has `soc_vars 0 = initial_soc = 1/2`. -/
theorem initial_soc_constraint_pins_initial_soc_witness :
    zeroHalfAssignment.soc_vars 0 = exampleBattery.initial_soc :=
  initial_soc_constraint_pins_initial_soc exampleBattery 1 5 zeroHalfAssignment
    (feasible_zeroHalf 1 5 (by norm_num))

/-- C5 counterexample: with `max_cycles = 0` on a 2-interval horizon over
`Battery(1.0)`, the assignment that discharges `1/2` in the last interval
satisfies every constraint of the built model (the last-interval charge
and discharge never enter the cycled-energy recursion), its objective at
constant price 10 strictly exceeds that of the idle assignment, and its realized
P&L is not 0. -/
theorem max_cycles_zero_last_interval_free :
    feasible exampleBattery 2 0 lastIntervalAssignment ∧
    lastIntervalAssignment.discharge_vars 1 ≠ 0 ∧
    objective exampleBattery (fun _ => 10) 1 2 lastIntervalAssignment
      > objective exampleBattery (fun _ => 10) 1 2 zeroHalfAssignment ∧
    calculate (9 / 10) (9 / 10) [(0, 0), (0, 1 / 2)] [10, 10] 1 ≠ 0 := by
  refine ⟨?_, by norm_num [lastIntervalAssignment], ?_, ?_⟩
  · refine ⟨fun t ht => ?_, ?_, fun t ht => ?_, fun t ht => ?_, fun t ht => ?_, ?_⟩
    · have h : t = 0 ∨ t = 1 := by omega
      rcases h with h | h <;> norm_num [h, lastIntervalAssignment, exampleBattery]
    · norm_num [lastIntervalAssignment, exampleBattery]
    · have h : t = 0 ∨ t = 1 := by omega
      rcases h with h | h <;> norm_num [h, lastIntervalAssignment, exampleBattery]
    · have h : t = 0 := by omega
      norm_num [h, lastIntervalAssignment, exampleBattery]
    · have h : t = 0 := by omega
      norm_num [h, lastIntervalAssignment, exampleBattery]
    · norm_num [lastIntervalAssignment, exampleBattery]
  · norm_num [objective, Finset.sum_range_succ, lastIntervalAssignment,
      zeroHalfAssignment, exampleBattery]
  · norm_num [calculate, pnl_step]

/-- C5 amended: with `max_cycles = 0` and positive efficiencies, every
assignment satisfying the constraints of the built model is forced to
`charge[t] = discharge[t] = 0` for every interval `t ≤ N - 2` only: the
cycled-energy recursion references `charge[t]` and `discharge[t]` solely
through `cyc[t+1]` with `t + 1 ≤ N - 1`, so the last interval is
unconstrained by the cycle budget. -/
theorem max_cycles_zero_forces_idle_before_last (b : Battery) (N : ℕ)
    (v : LPAssignment) (hηc : 0 < b.charge_efficiency)
    (hηd : 0 < b.discharge_efficiency) (hfeas : feasible b N 0 v) :
    ∀ t, t + 1 < N → v.charge_vars t = 0 ∧ v.discharge_vars t = 0 := by
  obtain ⟨hbounds, _hsoc0, _hcd, _hsocdyn, hcyc, hcap⟩ := hfeas
  have hcapz : v.energy_cycled_vars (N - 1) ≤ 0 := by
    have := hcap
    linarith [this]
  have hnonneg : ∀ t, t < N → 0 ≤ v.energy_cycled_vars t :=
    fun t ht => (hbounds t ht).2.2.2
  have hstep : ∀ t, t + 1 < N →
      v.energy_cycled_vars t ≤ v.energy_cycled_vars (t + 1) := by
    intro t ht
    have hc := (hbounds t (by omega)).1.1
    have hd := (hbounds t (by omega)).2.1.1
    have h1 : 0 ≤ v.charge_vars t * b.charge_efficiency :=
      mul_nonneg hc hηc.le
    have h2 : 0 ≤ v.discharge_vars t * (1 / b.discharge_efficiency) :=
      mul_nonneg hd (by positivity)
    have := hcyc t ht
    linarith
  have hmono : ∀ k t, t + k < N →
      v.energy_cycled_vars t ≤ v.energy_cycled_vars (t + k) := by
    intro k
    induction k with
    | zero => intro t _; simp
    | succ k ih =>
      intro t ht
      have h1 := ih t (by omega)
      have h2 := hstep (t + k) (by omega)
      calc v.energy_cycled_vars t ≤ v.energy_cycled_vars (t + k) := h1
        _ ≤ v.energy_cycled_vars (t + k + 1) := h2
        _ = v.energy_cycled_vars (t + (k + 1)) := by ring_nf
  have hzero : ∀ t, t < N → v.energy_cycled_vars t = 0 := by
    intro t ht
    have hle : v.energy_cycled_vars t ≤ v.energy_cycled_vars (N - 1) := by
      have heq : t + (N - 1 - t) = N - 1 := by omega
      have := hmono (N - 1 - t) t (by omega)
      rwa [heq] at this
    exact le_antisymm (le_trans hle hcapz) (hnonneg t ht)
  intro t ht
  have hc := (hbounds t (by omega)).1.1
  have hd := (hbounds t (by omega)).2.1.1
  have h1 : 0 ≤ v.charge_vars t * b.charge_efficiency := mul_nonneg hc hηc.le
  have h2 : 0 ≤ v.discharge_vars t * (1 / b.discharge_efficiency) :=
    mul_nonneg hd (by positivity)
  have heq := hcyc t ht
  rw [hzero t (by omega), hzero (t + 1) ht] at heq
  have hcz : v.charge_vars t * b.charge_efficiency = 0 := by linarith
  have hdz : v.discharge_vars t * (1 / b.discharge_efficiency) = 0 := by linarith
  constructor
  · rcases mul_eq_zero.mp hcz with h | h
    · exact h
    · exact absurd h hηc.ne'
  · rcases mul_eq_zero.mp hdz with h | h
    · exact h
    · exact absurd h (by positivity)

/-- Witness for C5 amended: the idle assignment is feasible for
`Battery(1.0)` with `max_cycles = 0` on a 2-interval horizon, and interval 0
is forced idle. -/
theorem max_cycles_zero_forces_idle_before_last_witness :
    zeroHalfAssignment.charge_vars 0 = 0 ∧
    zeroHalfAssignment.discharge_vars 0 = 0 :=
  max_cycles_zero_forces_idle_before_last exampleBattery 2 zeroHalfAssignment
    (by norm_num [exampleBattery]) (by norm_num [exampleBattery])
    (feasible_zeroHalf 2 0 le_rfl) 0 (by norm_num)

/-- Both `charge` and `discharge` first overwrite the efficiency fields with
the temperature-adjusted values of the *current* fields, and no later step
of either operation touches the efficiency or temperature fields. -/
theorem applyOp_efficiency_fields (b : Battery) (op : BatteryOp) :
    (applyOp b op).charge_efficiency
        = max (1 / 2) (min (b.charge_efficiency - |b.temperature_c - 25| * (1 / 100)) 1) ∧
      (applyOp b op).discharge_efficiency
        = max (1 / 2) (min (b.discharge_efficiency - |b.temperature_c - 25| * (1 / 100)) 1) ∧
      (applyOp b op).temperature_c = b.temperature_c := by
  cases op <;>
    simp [applyOp, Battery.charge, Battery.discharge, Battery.update_soh_and_cycles,
      Battery.check_and_update_cycles, Battery.adjust_efficiency_for_temperature,
      adjust_efficiency]

/-- For an efficiency already at most 1 the upper clamp of the adjustment is
inactive. -/
theorem adjust_drop (η eff : ℚ) (hη : η ≤ 1) (heff : 0 ≤ eff) :
    max (1 / 2) (min (η - eff) 1) = max (1 / 2) (η - eff) := by
  rw [min_eq_left (by linarith)]

/-- Folding `k` further operations over an efficiency in `[1/2, 1]` yields
`max (1/2) (η - k·eff)` where `eff` is the per-operation temperature effect:
each operation subtracts `eff` from the *current* value, clamped at `1/2`. -/
theorem applyOps_efficiency_closed_form (ops : List BatteryOp) :
    ∀ b : Battery, 1 / 2 ≤ b.charge_efficiency → b.charge_efficiency ≤ 1 →
      1 / 2 ≤ b.discharge_efficiency → b.discharge_efficiency ≤ 1 →
      (applyOps b ops).charge_efficiency
          = max (1 / 2)
              (b.charge_efficiency
                - ops.length * (|b.temperature_c - 25| * (1 / 100))) ∧
        (applyOps b ops).discharge_efficiency
          = max (1 / 2)
              (b.discharge_efficiency
                - ops.length * (|b.temperature_c - 25| * (1 / 100))) := by
  induction ops with
  | nil =>
    intro b hc0 _ hd0 _
    simp only [applyOps, List.foldl_nil, List.length_nil, Nat.cast_zero, zero_mul,
      sub_zero]
    exact ⟨(max_eq_right hc0).symm, (max_eq_right hd0).symm⟩
  | cons op ops ih =>
    intro b hc0 hc1 hd0 hd1
    have heff : 0 ≤ |b.temperature_c - 25| * (1 / 100) := by positivity
    obtain ⟨hce, hde, htemp⟩ := applyOp_efficiency_fields b op
    have hstep : applyOps b (op :: ops) = applyOps (applyOp b op) ops := rfl
    have hc0' : 1 / 2 ≤ (applyOp b op).charge_efficiency := by
      rw [hce]; exact le_max_left _ _
    have hc1' : (applyOp b op).charge_efficiency ≤ 1 := by
      rw [hce, adjust_drop _ _ hc1 heff]
      exact max_le (by norm_num) (by linarith)
    have hd0' : 1 / 2 ≤ (applyOp b op).discharge_efficiency := by
      rw [hde]; exact le_max_left _ _
    have hd1' : (applyOp b op).discharge_efficiency ≤ 1 := by
      rw [hde, adjust_drop _ _ hd1 heff]
      exact max_le (by norm_num) (by linarith)
    obtain ⟨ihc, ihd⟩ := ih (applyOp b op) hc0' hc1' hd0' hd1'
    rw [htemp] at ihc ihd
    have hkeff : 0 ≤ (ops.length : ℚ) * (|b.temperature_c - 25| * (1 / 100)) := by
      positivity
    constructor
    · rw [hstep, ihc, hce, adjust_drop _ _ hc1 heff, ← max_sub_sub_right,
        ← max_assoc, max_eq_left (sub_le_self _ hkeff)]
      congr 1
      simp only [List.length_cons]
      push_cast
      ring
    · rw [hstep, ihd, hde, adjust_drop _ _ hd1 heff, ← max_sub_sub_right,
        ← max_assoc, max_eq_left (sub_le_self _ hkeff)]
      congr 1
      simp only [List.length_cons]
      push_cast
      ring

/-- C9: each `charge`/`discharge` call re-adjusts the *current*
efficiency fields at its start: a single operation maps each efficiency
`η ∈ [1/2, 1]` to `max (1/2) (η - |T - 25|·0.01)` — staying in `[1/2, 1]`,
never increasing, strictly decreasing (by exactly the temperature effect
until the floor interferes) whenever `T ≠ 25` and `η` is above the floor —
and a sequence of `k` operations yields `max (1/2) (η - k·|T - 25|·0.01)`,
which distinguishes adjusting the current value from adjusting a fixed
base. -/
theorem temperature_adjustment_acts_on_current_efficiencies (b : Battery)
    (op : BatteryOp) (ops : List BatteryOp)
    (hc0 : 1 / 2 ≤ b.charge_efficiency) (hc1 : b.charge_efficiency ≤ 1)
    (hd0 : 1 / 2 ≤ b.discharge_efficiency) (hd1 : b.discharge_efficiency ≤ 1) :
    ((applyOp b op).charge_efficiency
        = max (1 / 2) (b.charge_efficiency - |b.temperature_c - 25| * (1 / 100)) ∧
      (applyOp b op).discharge_efficiency
        = max (1 / 2) (b.discharge_efficiency - |b.temperature_c - 25| * (1 / 100))) ∧
    (1 / 2 ≤ (applyOp b op).charge_efficiency ∧
      (applyOp b op).charge_efficiency ≤ b.charge_efficiency ∧
      1 / 2 ≤ (applyOp b op).discharge_efficiency ∧
      (applyOp b op).discharge_efficiency ≤ b.discharge_efficiency) ∧
    (b.temperature_c ≠ 25 →
      (1 / 2 < b.charge_efficiency →
        (applyOp b op).charge_efficiency < b.charge_efficiency) ∧
      (1 / 2 < b.discharge_efficiency →
        (applyOp b op).discharge_efficiency < b.discharge_efficiency) ∧
      (1 / 2 ≤ b.charge_efficiency - |b.temperature_c - 25| * (1 / 100) →
        (applyOp b op).charge_efficiency
          = b.charge_efficiency - |b.temperature_c - 25| * (1 / 100)) ∧
      (1 / 2 ≤ b.discharge_efficiency - |b.temperature_c - 25| * (1 / 100) →
        (applyOp b op).discharge_efficiency
          = b.discharge_efficiency - |b.temperature_c - 25| * (1 / 100))) ∧
    ((applyOps b ops).charge_efficiency
        = max (1 / 2)
            (b.charge_efficiency - ops.length * (|b.temperature_c - 25| * (1 / 100))) ∧
      (applyOps b ops).discharge_efficiency
        = max (1 / 2)
            (b.discharge_efficiency - ops.length * (|b.temperature_c - 25| * (1 / 100))) ∧
      1 / 2 ≤ (applyOps b ops).charge_efficiency ∧
      (applyOps b ops).charge_efficiency ≤ 1 ∧
      1 / 2 ≤ (applyOps b ops).discharge_efficiency ∧
      (applyOps b ops).discharge_efficiency ≤ 1) := by
  have heff : 0 ≤ |b.temperature_c - 25| * (1 / 100) := by positivity
  obtain ⟨hce, hde, _⟩ := applyOp_efficiency_fields b op
  have hce' : (applyOp b op).charge_efficiency
      = max (1 / 2) (b.charge_efficiency - |b.temperature_c - 25| * (1 / 100)) := by
    rw [hce, adjust_drop _ _ hc1 heff]
  have hde' : (applyOp b op).discharge_efficiency
      = max (1 / 2) (b.discharge_efficiency - |b.temperature_c - 25| * (1 / 100)) := by
    rw [hde, adjust_drop _ _ hd1 heff]
  obtain ⟨hoc, hod⟩ := applyOps_efficiency_closed_form ops b hc0 hc1 hd0 hd1
  have hkeff : 0 ≤ (ops.length : ℚ) * (|b.temperature_c - 25| * (1 / 100)) := by
    positivity
  refine ⟨⟨hce', hde'⟩, ?_, ?_, hoc, hod, ?_, ?_, ?_, ?_⟩
  · refine ⟨?_, ?_, ?_, ?_⟩
    · rw [hce']; exact le_max_left _ _
    · rw [hce']; exact max_le hc0 (by linarith)
    · rw [hde']; exact le_max_left _ _
    · rw [hde']; exact max_le hd0 (by linarith)
  · intro htne
    have habs : 0 < |b.temperature_c - 25| * (1 / 100) := by
      have : b.temperature_c - 25 ≠ 0 := sub_ne_zero_of_ne htne
      have := abs_pos.mpr this
      linarith
    refine ⟨?_, ?_, ?_, ?_⟩
    · intro hgt; rw [hce']; exact max_lt (by linarith) (by linarith)
    · intro hgt; rw [hde']; exact max_lt (by linarith) (by linarith)
    · intro hfloor; rw [hce']; exact max_eq_right hfloor
    · intro hfloor; rw [hde']; exact max_eq_right hfloor
  · rw [hoc]; exact le_max_left _ _
  · rw [hoc]; exact max_le (by norm_num) (by linarith)
  · rw [hod]; exact le_max_left _ _
  · rw [hod]; exact max_le (by norm_num) (by linarith)

/-- Witness for C9: on `Battery(1.0, temperature_c=30)` one charge lowers
the charge efficiency strictly below 0.9 and two operations bring it to
`0.9 - 2·0.05 = 0.8`. -/
theorem temperature_adjustment_acts_on_current_efficiencies_witness :
    (applyOp hotBattery (BatteryOp.charge 1)).charge_efficiency
        < hotBattery.charge_efficiency ∧
      (applyOps hotBattery [BatteryOp.charge 1, BatteryOp.discharge 1]).charge_efficiency
        = max (1 / 2) (9 / 10 - 2 * (|(30 : ℚ) - 25| * (1 / 100))) := by
  have h := temperature_adjustment_acts_on_current_efficiencies hotBattery
    (BatteryOp.charge 1) [BatteryOp.charge 1, BatteryOp.discharge 1]
    (by norm_num [hotBattery, exampleBattery]) (by norm_num [hotBattery, exampleBattery])
    (by norm_num [hotBattery, exampleBattery]) (by norm_num [hotBattery, exampleBattery])
  constructor
  · exact (h.2.2.1 (by norm_num [hotBattery, exampleBattery])).1
      (by norm_num [hotBattery, exampleBattery])
  · have := h.2.2.2.1
    rw [this]
    norm_num [hotBattery, exampleBattery]

/-- C10: negative energy arguments pass `charge`/`discharge` unvalidated:
the rate clamp `min(energy, rate·duration)` leaves a negative request
unchanged, `charge` then moves SOC by the (negative) amount with only the
ceiling clamp at 1 and `discharge` with only the floor clamp at 0, and
`energy_cycled_mwh` is strictly decremented; some negative charge drives SOC
below 0 (witnessed on `Battery(1.0)` with `charge(-10)`), while every
non-negative request keeps SOC inside `[0, 1]`. -/
theorem negative_energy_unvalidated (b : Battery) (e eneg : ℚ)
    (hneg : eneg < 0) (hpos : 0 ≤ e) (hsoc0 : 0 ≤ b.soc) (hsoc1 : b.soc ≤ 1)
    (hcr : 0 ≤ b.max_charge_rate_mw * b.duration_hours)
    (hdr : 0 ≤ b.max_discharge_rate_mw * b.duration_hours)
    (hcap : 0 < b.capacity_mwh) :
    min eneg (b.max_charge_rate_mw * b.duration_hours) = eneg ∧
    min eneg (b.max_discharge_rate_mw * b.duration_hours) = eneg ∧
    (b.charge eneg).soc
      = min (b.soc
          + eneg * (adjust_efficiency b.temperature_c b.charge_efficiency
              b.discharge_efficiency).1 / b.capacity_mwh) 1 ∧
    (b.discharge eneg).soc
      = max (b.soc
          - eneg * (adjust_efficiency b.temperature_c b.charge_efficiency
              b.discharge_efficiency).2 / b.capacity_mwh) 0 ∧
    (b.charge eneg).energy_cycled_mwh < b.energy_cycled_mwh ∧
    (b.discharge eneg).energy_cycled_mwh < b.energy_cycled_mwh ∧
    (0 ≤ (b.charge e).soc ∧ (b.charge e).soc ≤ 1) ∧
    (0 ≤ (b.discharge e).soc ∧ (b.discharge e).soc ≤ 1) ∧
    (exampleBattery.charge (-10)).soc < 0 := by
  have hminc : min eneg (b.max_charge_rate_mw * b.duration_hours) = eneg :=
    min_eq_left (by linarith)
  have hmind : min eneg (b.max_discharge_rate_mw * b.duration_hours) = eneg :=
    min_eq_left (by linarith)
  have hηc : 0 ≤ (adjust_efficiency b.temperature_c b.charge_efficiency
      b.discharge_efficiency).1 := le_trans (by norm_num) (le_max_left _ _)
  have hηd : 0 ≤ (adjust_efficiency b.temperature_c b.charge_efficiency
      b.discharge_efficiency).2 := le_trans (by norm_num) (le_max_left _ _)
  have hterm : 0 ≤ min e (b.max_charge_rate_mw * b.duration_hours)
      * (adjust_efficiency b.temperature_c b.charge_efficiency
          b.discharge_efficiency).1 / b.capacity_mwh :=
    div_nonneg (mul_nonneg (le_min hpos hcr) hηc) hcap.le
  have hterm' : 0 ≤ min e (b.max_discharge_rate_mw * b.duration_hours)
      * (adjust_efficiency b.temperature_c b.charge_efficiency
          b.discharge_efficiency).2 / b.capacity_mwh :=
    div_nonneg (mul_nonneg (le_min hpos hdr) hηd) hcap.le
  refine ⟨hminc, hmind, ?_, ?_, ?_, ?_, ⟨?_, ?_⟩, ⟨?_, ?_⟩, ?_⟩
  · rw [(charge_fields b eneg).1, hminc]
  · rw [(discharge_fields b eneg).1, hmind]
  · rw [(charge_fields b eneg).2.1, hminc]; linarith
  · rw [(discharge_fields b eneg).2.1, hmind]; linarith
  · rw [(charge_fields b e).1]
    exact le_min (by linarith) (by norm_num)
  · rw [(charge_fields b e).1]
    exact min_le_right _ _
  · rw [(discharge_fields b e).1]
    exact le_max_right _ _
  · rw [(discharge_fields b e).1]
    exact max_le (by linarith) (by norm_num)
  · rw [(charge_fields exampleBattery (-10)).1]
    norm_num [exampleBattery, adjust_efficiency]

/-- Witness for C10: instantiated on `Battery(1.0)` with requests `-1`
and `1`. -/
theorem negative_energy_unvalidated_witness :
    (exampleBattery.charge (-1)).energy_cycled_mwh
        < exampleBattery.energy_cycled_mwh ∧
      (exampleBattery.charge (-10)).soc < 0 ∧
      0 ≤ (exampleBattery.charge 1).soc := by
  have h := negative_energy_unvalidated exampleBattery 1 (-1) (by norm_num)
    (by norm_num) (by norm_num [exampleBattery]) (by norm_num [exampleBattery])
    (by norm_num [exampleBattery]) (by norm_num [exampleBattery])
    (by norm_num [exampleBattery])
  exact ⟨h.2.2.2.2.1, h.2.2.2.2.2.2.2.2, h.2.2.2.2.2.2.1.1⟩

/-- The envelope loop emits exactly one price per remaining interval. -/
theorem generate_loop_length {σ : Type} (nextFn : σ → ℚ × σ) (sinq : ℚ → ℚ)
    (piq : ℚ) (cfg : EnvelopeConfig) :
    ∀ (n i : ℕ) (s : σ),
      (generate_loop nextFn sinq piq cfg n i s).1.length = n := by
  intro n
  induction n with
  | zero => intro i s; rfl
  | succ n ih =>
    intro i s
    simp only [generate_loop, List.length_cons]
    rw [ih]

/-- The noise adder emits exactly one price per input price. -/
theorem add_noise_length {σ : Type} (nextFn : σ → ℚ × σ) (cfg : NoiseConfig) :
    ∀ (l : List ℚ) (s : σ), (add_noise nextFn cfg l s).1.length = l.length := by
  intro l
  induction l with
  | nil => intro s; rfl
  | cons p ps ih =>
    intro s
    simp only [add_noise, List.length_cons]
    rw [ih]

/-- C8: `get_prices` returns two lists of length `num_intervals`, and its
output pair depends only on the ordinal of the date and the configuration — the
envelope generator re-seeds the PRNG from `date.toordinal()`, so the state
the global PRNG happened to be in before the call (`s₀` versus `s₁`) is
irrelevant: two calls with the same date and configuration return identical
pairs. -/
theorem get_prices_length_and_reproducible (σ : Type) (seedFn : ℕ → σ)
    (nextFn : σ → ℚ × σ) (sinq : ℚ → ℚ) (piq : ℚ) (ecfg : EnvelopeConfig)
    (ncfg : NoiseConfig) (ordinal : ℕ) (s₀ s₁ : σ) :
    (get_prices seedFn nextFn sinq piq ecfg ncfg ordinal s₀).1.1.length
        = ecfg.num_intervals ∧
      (get_prices seedFn nextFn sinq piq ecfg ncfg ordinal s₀).1.2.length
        = ecfg.num_intervals ∧
      (get_prices seedFn nextFn sinq piq ecfg ncfg ordinal s₀).1
        = (get_prices seedFn nextFn sinq piq ecfg ncfg ordinal s₁).1 := by
  refine ⟨?_, ?_, rfl⟩
  · exact generate_loop_length nextFn sinq piq ecfg ecfg.num_intervals 0
      (seedFn ordinal)
  · simp only [get_prices, generate]
    rw [add_noise_length, generate_loop_length]

end OpenEnergy
